import Mathlib

/-!
Verification of the interview-preparation control logic of the repository
(borjigin-gpt).  The definitions below are a shallow embedding of the Python
sources:

* `src/config/settings.py`        — the agent configuration values;
* `src/agents/nodes.py`           — the LangGraph node functions, in particular
  `critique_answer_node`, `generate_answer_node` and `handle_follow_up_node`;
* `src/agents/graph.py`           — the workflow wiring and `_should_iterate`;
* `src/tools/generation_tools.py` — `adjust_difficulty`;
* `src/memory/short_term_memory.py` — the session state store;
* `src/memory/company_research_cache.py` — the TTL research cache;
* `src/agents/mock_interview.py`  — `_get_company_research`;
* `src/agents/orchestrator.py`    — the orchestrator workflows.

Numeric scores are modelled by `ℚ` (the comparisons appearing in the code are
between exactly representable decimal values, so rational arithmetic is
faithful here), timestamps by `ℚ`, and Python dictionaries by association
lists or records.  External collaborators (the language model, the web search,
the vector store similarity order) enter as explicit parameters.
-/

namespace BorjiginGPT

/-- Settings relevant to the control logic, from `src/config/settings.py`
(class `Settings`): `max_iterations: int = 3`, `critique_threshold: float = 7.0`,
`follow_up_depth: int = 3`. -/
structure Settings where
  max_iterations : ℕ
  critique_threshold : ℚ
  follow_up_depth : ℕ
deriving DecidableEq, Repr

/-- Default values of the `Settings` fields (settings.py lines 26-28). -/
def defaultSettings : Settings := ⟨3, 7, 3⟩

/-- Critique result, modelling the parsed JSON dictionary built in
`critique_answer_node` (nodes.py lines 195-220): six named sub-scores, an
overall scalar, strengths, improvements, and the optional company alignment
text attached when company context is present. -/
structure Critique where
  authenticity : ℚ
  relevance : ℚ
  structure_score : ℚ
  specificity : ℚ
  impact : ℚ
  length_score : ℚ
  overall : ℚ
  strengths : List String
  improvements : List String
  company_alignment : Option String := none
deriving DecidableEq, Repr

/-- Fallback critique substituted when JSON parsing of the validator output
fails (nodes.py lines 198-211): every sub-score and the overall score are 7.0,
with generic strength and improvement placeholders. -/
def fallback_critique : Critique :=
  { authenticity := 7, relevance := 7, structure_score := 7, specificity := 7
    impact := 7, length_score := 7, overall := 7
    strengths := ["Answer provided"]
    improvements := ["Could be more specific"] }

/-- Output of `critique_answer_node` that matters for control flow: the
critique dictionary put into the state and the `should_iterate` flag. -/
structure CritiqueNodeResult where
  critique_result : Critique
  should_iterate : Bool
deriving DecidableEq, Repr

/-- Shallow embedding of `critique_answer_node` (nodes.py lines 177-237).
The validator collaborator output is abstracted as `parsed : Option Critique`
(`none` models a JSON parse failure, which substitutes `fallback_critique`).
If company context is present an alignment assessment is attached.  The
iterate decision is
`should_iterate = (overall_score < settings.critique_threshold) and
(iteration_count < settings.max_iterations)` (lines 226-229). -/
def critique_answer_node (s : Settings) (parsed : Option Critique)
    (company_context : String) (alignment_result : String)
    (iteration_count : ℕ) : CritiqueNodeResult :=
  let critique0 := parsed.getD fallback_critique
  let critique :=
    if company_context ≠ "" then
      { critique0 with company_alignment := some alignment_result }
    else critique0
  let overall_score := critique.overall
  let should_iterate :=
    decide (overall_score < s.critique_threshold) &&
    decide (iteration_count < s.max_iterations)
  ⟨critique, should_iterate⟩

/-- Targets of the conditional edge out of `critique_answer` (graph.py
lines 60-67). -/
inductive Route
  | iterate
  | refine
deriving DecidableEq, Repr

/-- Shallow embedding of `InterviewPrepAgent._should_iterate` (graph.py
lines 76-79): route on the `should_iterate` flag of the state. -/
def should_iterate_edge (should_iterate : Bool) : Route :=
  if should_iterate then Route.iterate else Route.refine

/-- Result of running the generate/critique loop of the workflow. -/
structure LoopResult where
  iterations : ℕ
  rounds : List Critique
  should_iterate : Bool
  last : Critique
deriving DecidableEq, Repr

/-- Fuel-indexed unfolding of the generate→critique→(iterate|refine) cycle of
the workflow (graph.py lines 56-67).  `generate_answer_node` increments the
iteration counter (nodes.py line 173); the critique of the draft produced in
round `it + 1` is `critiques it`; the loop repeats exactly when
`critique_answer_node` sets `should_iterate` and `_should_iterate` routes back
to `generate_answer`.  `acc` accumulates the critiques of the rounds already
performed, newest first. -/
def critique_loop_aux (s : Settings) (critiques : ℕ → Critique)
    (company_context : String) (alignment_result : String) :
    ℕ → ℕ → List Critique → LoopResult
  | 0, it, acc => ⟨it, acc.reverse, true, fallback_critique⟩
  | fuel + 1, it, acc =>
      let it' := it + 1
      let r := critique_answer_node s (some (critiques it))
                 company_context alignment_result it'
      if r.should_iterate then
        critique_loop_aux s critiques company_context alignment_result
          fuel it' (r.critique_result :: acc)
      else
        ⟨it', (r.critique_result :: acc).reverse, r.should_iterate,
          r.critique_result⟩

/-- The generate/critique loop run from a fresh state
(`iteration_count = 0`, graph.py line 114).  A fuel of
`s.max_iterations + 1` is enough, as proved below. -/
def critique_loop (s : Settings) (critiques : ℕ → Critique)
    (company_context : String) (alignment_result : String) : LoopResult :=
  critique_loop_aux s critiques company_context alignment_result
    (s.max_iterations + 1) 0 []

/-- Shallow embedding of `GenerationTools.adjust_difficulty`
(generation_tools.py lines 249-273).  Difficulty levels are the Python
strings; the chained `if`/`elif` falls through to returning the current
difficulty unchanged. -/
def adjust_difficulty (current_difficulty : String)
    (performance_score : ℚ) : String :=
  if (8.5 : ℚ) ≤ performance_score then
    if current_difficulty = "easy" then "medium"
    else if current_difficulty = "medium" then "hard"
    else current_difficulty
  else if performance_score ≤ (5.5 : ℚ) then
    if current_difficulty = "hard" then "medium"
    else if current_difficulty = "medium" then "easy"
    else current_difficulty
  else current_difficulty

/-- Rank of a difficulty level in the ordered scale easy < medium < hard,
used to state the one-step bound of the staircase. -/
def difficulty_rank (d : String) : ℕ :=
  if d = "easy" then 0 else if d = "medium" then 1 else 2

/-- Interview modes (short_term_memory.py lines 7-10). -/
inductive InterviewMode
  | preparation
  | practice
  | mock_interview
deriving DecidableEq, Repr

/-- Mock-interview sub-state (short_term_memory.py lines 12-16).  The
question dictionaries are abstracted to their identity as list elements. -/
structure MockInterviewSession where
  generated_questions : List String := []
  current_question_index : ℕ := 0
  difficulty_level : String := "medium"
  performance_scores : List ℚ := []
deriving DecidableEq, Repr

/-- Practice sub-state (short_term_memory.py lines 18-24).  Iteration history
entries carry the iteration index and score recorded by the orchestrator. -/
structure PracticeSession where
  questions_asked : List String := []
  answers_given : List String := []
  follow_ups_asked : List String := []
  follow_up_answers : List String := []
  critique_scores : List Critique := []
  iteration_history : List (ℕ × ℚ) := []
deriving DecidableEq, Repr

/-- Session entity (short_term_memory.py lines 26-52), restricted to the
fields the control logic reads or writes. -/
structure InterviewSession where
  job_description : String := ""
  company_name : String := ""
  position : String := ""
  mode : InterviewMode := InterviewMode.practice
  mock_session : MockInterviewSession := {}
  practice_session : PracticeSession := {}
  current_question : Option String := none
  current_answer : Option String := none
  awaiting_follow_up : Bool := false
  follow_up_depth : ℕ := 0
deriving DecidableEq, Repr

/-- Shallow embedding of `ShortTermMemory.create_session` (short_term_memory.py
lines 60-74): the new session replaces any prior one and every sub-state field
takes its model default, in particular `follow_up_depth = 0`. -/
def create_session (job_description company_name position : String)
    (mode : InterviewMode) : InterviewSession :=
  { job_description := job_description, company_name := company_name
    position := position, mode := mode }

/-- Shallow embedding of `ShortTermMemory.get_next_mock_question`
(short_term_memory.py lines 94-104) at the level of the mock sub-state:
return the question at `current_question_index` and increment the index when
the index is in range, otherwise return nothing and leave the state
unchanged.  The enclosing guard returning `None` when no session is active is
modelled by `stm_get_next_mock_question` below. -/
def get_next_mock_question (m : MockInterviewSession) :
    Option String × MockInterviewSession :=
  if m.current_question_index < m.generated_questions.length then
    (m.generated_questions[m.current_question_index]?,
      { m with current_question_index := m.current_question_index + 1 })
  else (none, m)

/-- Session-optional wrapper of `get_next_mock_question`, matching the
`if not self.current_session: return None` guard of the source. -/
def stm_get_next_mock_question (current_session : Option InterviewSession) :
    Option String × Option InterviewSession :=
  match current_session with
  | none => (none, none)
  | some sess =>
      let (q, m') := get_next_mock_question sess.mock_session
      (q, some { sess with mock_session := m' })

/-- Repeated calls to `get_next_mock_question`, collecting the returned
values in order together with the final state. -/
def calls_get_next : ℕ → MockInterviewSession →
    List (Option String) × MockInterviewSession
  | 0, m => ([], m)
  | n + 1, m =>
      let (q, m') := get_next_mock_question m
      let (rest, m'') := calls_get_next n m'
      (q :: rest, m'')

/-- Shallow embedding of `ShortTermMemory.add_question` (short_term_memory.py
lines 106-111): append the question and set `current_question`; no other
field of the session changes. -/
def add_question (sess : InterviewSession) (question : String) :
    InterviewSession :=
  { sess with
    practice_session :=
      { sess.practice_session with
        questions_asked := sess.practice_session.questions_asked ++ [question] }
    current_question := some question }

/-- Shallow embedding of `ShortTermMemory.add_answer` (short_term_memory.py
lines 113-122): append the answer, set `current_answer`, and append the
critique score when one is given (`if critique_score:`). -/
def add_answer (sess : InterviewSession) (answer : String)
    (critique_score : Option Critique) : InterviewSession :=
  { sess with
    practice_session :=
      { sess.practice_session with
        answers_given := sess.practice_session.answers_given ++ [answer]
        critique_scores :=
          match critique_score with
          | some c => sess.practice_session.critique_scores ++ [c]
          | none => sess.practice_session.critique_scores }
    current_answer := some answer }

/-- Shallow embedding of `ShortTermMemory.add_iteration` (short_term_memory.py
lines 124-130): append one record to the iteration history. -/
def add_iteration (sess : InterviewSession) (record : ℕ × ℚ) :
    InterviewSession :=
  { sess with
    practice_session :=
      { sess.practice_session with
        iteration_history :=
          sess.practice_session.iteration_history ++ [record] } }

/-- Shallow embedding of `ShortTermMemory.add_follow_up` (short_term_memory.py
lines 132-141): append the follow-up question (and answer when given),
increment `follow_up_depth` by one, and set the awaiting flag exactly when no
answer was supplied. -/
def add_follow_up (sess : InterviewSession) (question : String)
    (answer : Option String) : InterviewSession :=
  { sess with
    practice_session :=
      { sess.practice_session with
        follow_ups_asked := sess.practice_session.follow_ups_asked ++ [question]
        follow_up_answers :=
          match answer with
          | some a => sess.practice_session.follow_up_answers ++ [a]
          | none => sess.practice_session.follow_up_answers }
    follow_up_depth := sess.follow_up_depth + 1
    awaiting_follow_up := answer.isNone }

/-- Shallow embedding of `ShortTermMemory.set_mode` (short_term_memory.py
lines 76-80). -/
def set_mode (sess : InterviewSession) (mode : InterviewMode) :
    InterviewSession :=
  { sess with mode := mode }

/-- Shallow embedding of `ShortTermMemory.add_mock_questions`
(short_term_memory.py lines 88-92): replace the generated question list. -/
def add_mock_questions (sess : InterviewSession) (questions : List String) :
    InterviewSession :=
  { sess with
    mock_session := { sess.mock_session with generated_questions := questions } }

/-- Average score of `ShortTermMemory.get_performance_summary`
(short_term_memory.py lines 170-186): 0 when no critique scores are recorded,
otherwise the arithmetic mean of `s.get("overall", 0)` over the full
`critique_scores` list of the practice sub-state. -/
def performance_average (sess : InterviewSession) : ℚ :=
  let scores := sess.practice_session.critique_scores
  if scores = [] then 0
  else (scores.map Critique.overall).sum / scores.length

/-- Nodes registered on the workflow graph (graph.py lines 42-49). -/
def workflow_nodes : List String :=
  ["analyze_question", "retrieve_context", "generate_answer",
   "critique_answer", "refine_answer", "extract_key_points",
   "predict_follow_ups", "handle_follow_up"]

/-- Entry point of the workflow (graph.py line 52). -/
def workflow_entry_point : String := "analyze_question"

/-- Edges of the workflow (graph.py lines 55-71): the unconditional edges plus
the two targets of the conditional edge out of `critique_answer`
(`iterate → generate_answer`, `refine → refine_answer`).  `END` is written
as the string "END". -/
def workflow_edges : List (String × String) :=
  [("analyze_question", "retrieve_context"),
   ("retrieve_context", "generate_answer"),
   ("generate_answer", "critique_answer"),
   ("critique_answer", "generate_answer"),
   ("critique_answer", "refine_answer"),
   ("refine_answer", "extract_key_points"),
   ("extract_key_points", "predict_follow_ups"),
   ("predict_follow_ups", "END")]

/-- State updates returned by `handle_follow_up_node` (nodes.py
lines 349-369).  Fields which the returned dictionary omits are `none`. -/
structure FollowUpNodeResult where
  error : Option String
  iteration_count : Option ℕ
  follow_up_depth : Option ℕ
  message : String
deriving DecidableEq, Repr

/-- Shallow embedding of `handle_follow_up_node` (nodes.py lines 349-369):
when the incoming depth already equals or exceeds `settings.follow_up_depth`
the node returns the terminal maximum-depth signal, otherwise it resets the
iteration counter to 0 and increments the depth. -/
def handle_follow_up_node (s : Settings) (follow_up_depth : ℕ) :
    FollowUpNodeResult :=
  if s.follow_up_depth ≤ follow_up_depth then
    ⟨some "max_follow_up_depth", none, none,
      "Maximum follow-up depth reached"⟩
  else
    ⟨none, some 0, some (follow_up_depth + 1),
      "Processing follow-up question"⟩

/-- Result dictionary of `InterviewPrepAgent.process_question` (graph.py
lines 138-148), restricted to the fields the orchestrator consumes. -/
structure ProcessResult where
  answer : String
  critique_scores : Critique
  iterations : ℕ
  error : Option String
deriving DecidableEq, Repr

/-- Shallow embedding of `InterviewPrepAgent.process_question` (graph.py
lines 81-156).  The initial state has `iteration_count = 0`,
`follow_up_depth = 0` and `error = None`; the graph then runs
analyze → retrieve → generate → critique with the conditional loop back to
generate, then refine → extract → predict → END.  None of the nodes on this
path writes the `error` key (`handle_follow_up` is registered on the graph
but no edge leads to it), so the reported error stays `none`; the reported
`iterations` is the final `iteration_count` and `critique_scores` is the
critique of the last round.  The language-model collaborators are abstracted
by the critique stream `critiques` and the refined answer text `answer`. -/
def process_question (s : Settings) (critiques : ℕ → Critique)
    (company_context : String) (alignment_result : String)
    (answer : String) : ProcessResult :=
  let loop := critique_loop s critiques company_context alignment_result
  ⟨answer, loop.last, loop.iterations, none⟩

/-- Shallow embedding of `InterviewPrepAgent.process_follow_up` (graph.py
lines 158-192): the follow-up is processed as a new question by calling
`process_question` on a fresh initial state; in particular the session
follow-up depth is never consulted and the graph state starts at
`follow_up_depth = 0`. -/
def process_follow_up (s : Settings) (critiques : ℕ → Critique)
    (company_context : String) (alignment_result : String)
    (answer : String) : ProcessResult :=
  process_question s critiques company_context alignment_result answer

/-- Shallow embedding of the session mutation performed by
`InterviewPrepOrchestrator.practice_question` (orchestrator.py lines 96-140)
when a session is active: the question is processed by the agent, then
`add_question`, `add_answer` (with the critique) and one `add_iteration` per
reported iteration are applied.  The recorded iteration entries are
`{"iteration": i + 1, "score": overall}` for `i in range(iterations)`. -/
def practice_question_step (sess : InterviewSession) (question : String)
    (result : ProcessResult) : InterviewSession :=
  let s1 := add_question sess question
  let s2 := add_answer s1 result.answer (some result.critique_scores)
  (List.range result.iterations).foldl
    (fun acc i => add_iteration acc (i + 1, result.critique_scores.overall)) s2

/-- Outcome of `InterviewPrepOrchestrator.practice_follow_up`
(orchestrator.py lines 142-186): the agent result together with the session
after `add_follow_up`. -/
structure FollowUpOutcome where
  result : ProcessResult
  session_after : InterviewSession
deriving DecidableEq, Repr

/-- Shallow embedding of `InterviewPrepOrchestrator.practice_follow_up`
(orchestrator.py lines 142-186).  `none` models the `ValueError` raised when
no previous question or answer exists.  Otherwise the follow-up is processed
through `process_follow_up` — which always runs the full
generate/critique pipeline, without consulting `follow_up_depth` — and then
recorded with `add_follow_up`, which increments the depth. -/
def practice_follow_up (s : Settings) (sess : InterviewSession)
    (follow_up_question : String) (critiques : ℕ → Critique)
    (company_context : String) (alignment_result : String)
    (answer : String) : Option FollowUpOutcome :=
  if sess.practice_session.questions_asked = [] ∨
     sess.practice_session.answers_given = [] then
    none
  else
    let result := process_follow_up s critiques company_context
      alignment_result answer
    some ⟨result, add_follow_up sess follow_up_question (some result.answer)⟩

/-- Shallow embedding of `InterviewPrepOrchestrator._adjust_mock_difficulty`
(orchestrator.py lines 270-288): read the average score from
`get_performance_summary` and update the difficulty level through
`adjust_difficulty`. -/
def adjust_mock_difficulty (sess : InterviewSession) : InterviewSession :=
  let avg_score := performance_average sess
  let new_difficulty :=
    adjust_difficulty sess.mock_session.difficulty_level avg_score
  { sess with
    mock_session := { sess.mock_session with difficulty_level := new_difficulty } }

/-- Outcome of one `answer_mock_question` call, recording whether the
adaptive difficulty adjustment ran and the average it consumed. -/
structure MockAnswerOutcome where
  session_after : InterviewSession
  difficulty_adjusted : Bool
  average_used : Option ℚ
deriving DecidableEq, Repr

/-- Shallow embedding of `InterviewPrepOrchestrator.answer_mock_question`
(orchestrator.py lines 216-248).  `none` models the `ValueError` raised when
`current_question_index - 1` is out of range.  Otherwise the current question
is processed through `practice_question` (which also appends the critique to
the practice critique scores), the overall score is appended to
`performance_scores`, and `_adjust_mock_difficulty` runs exactly when the new
length of `performance_scores` is divisible by 3. -/
def answer_mock_question (sess : InterviewSession)
    (result : ProcessResult) : Option MockAnswerOutcome :=
  let idx := sess.mock_session.current_question_index
  if h : 1 ≤ idx ∧ idx - 1 < sess.mock_session.generated_questions.length then
    let current_question := sess.mock_session.generated_questions.get
      ⟨idx - 1, h.2⟩
    let s1 := practice_question_step sess current_question result
    let score := result.critique_scores.overall
    let s2 := { s1 with
      mock_session := { s1.mock_session with
        performance_scores := s1.mock_session.performance_scores ++ [score] } }
    if s2.mock_session.performance_scores.length % 3 = 0 then
      some ⟨adjust_mock_difficulty s2, true, some (performance_average s2)⟩
    else
      some ⟨s2, false, none⟩
  else none

/-- Cached research document (company_research_cache.py lines 36-90):
page content plus the metadata fields the read logic of the cache consumes.
Timestamps are rational numbers.  The write path would set
`expires_at = timestamp + timedelta(days=settings.research_cache_days)`, but
it never completes a document (see `add_research` below), so documents of
this shape can only describe hypothetical store contents the read path
would handle. -/
structure ResearchDoc where
  company : String
  doc_type : String
  page_content : String
  timestamp : ℚ
  expires_at : ℚ
deriving DecidableEq, Repr

/-- Research dictionary handed to `add_research`
(company_research_cache.py lines 27-94): the four optional fields the cache
stores; `none` models a missing key.  The `news` value may be a joined list
in the source; only its final text matters here. -/
structure ResearchData where
  overview : Option String := none
  culture : Option String := none
  news : Option String := none
  position_analysis : Option String := none
deriving DecidableEq, Repr

/-- Outcome of a `CompanyResearchCache.add_research` call: whether the call
raised, and the store afterwards. -/
structure AddResearchOutcome where
  raised : Bool
  store_after : List ResearchDoc
deriving DecidableEq, Repr

/-- Shallow embedding of `CompanyResearchCache.add_research`
(company_research_cache.py lines 27-94) together with the configuration bug
it always hits: after `timestamp = datetime.now()` (the parameter `now`),
the source builds one `Document` per field present in the research
dictionary, in the order overview, culture, news, position_analysis, and
each document's metadata computes the expiry instant
`timestamp + timedelta(days=settings.research_cache_days)` — but the
`Settings` class (settings.py, `extra = "ignore"`) declares no field named
`research_cache_days`, so that attribute access raises `AttributeError` while
the first present field's document is being built, before anything reaches
`vectorstore.add_documents`.  When no field is present, `documents` stays
empty and the guarded `add_documents` call is skipped.  On every path the
store is unchanged; `raised` records whether the `AttributeError` was
raised. -/
def add_research (store : List ResearchDoc) (company_name : String)
    (research_data : ResearchData) (now : ℚ) : AddResearchOutcome :=
  if research_data.overview.isSome ∨ research_data.culture.isSome ∨
     research_data.news.isSome ∨ research_data.position_analysis.isSome then
    ⟨true, store⟩
  else ⟨false, store⟩

/-- Model of `vectorstore.similarity_search(company_name, k=10,
filter={"company": company_name})` (company_research_cache.py lines 106-110):
the documents of the store whose company matches, at most 10 of them.  The
vector store ranks by embedding similarity; the model returns them in store
order, which is immaterial to the claims proved below. -/
def similarity_search (store : List ResearchDoc) (company_name : String) :
    List ResearchDoc :=
  (store.filter (fun d => d.company = company_name)).take 10

/-- Python dictionary assignment `m[k] = v` on an insertion-ordered
association list: overwrite the existing binding in place, or append. -/
def dict_insert (m : List (String × String)) (k v : String) :
    List (String × String) :=
  if m.any (fun p => p.1 = k) then
    m.map (fun p => if p.1 = k then (k, v) else p)
  else m ++ [(k, v)]

/-- Python dictionary lookup on the association-list model. -/
def dict_get (m : List (String × String)) (k : String) : Option String :=
  (m.find? (fun p => p.1 = k)).map Prod.snd

/-- Expiry-filtering loop of `get_research` (company_research_cache.py
lines 117-128): fold over the retrieved documents, skipping the expired
ones and binding the survivors by their type. -/
def research_data_of (results : List ResearchDoc) (now : ℚ) :
    List (String × String) :=
  results.foldl
    (fun acc doc =>
      if doc.expires_at < now then acc
      else if doc.doc_type ≠ "" then
        dict_insert acc doc.doc_type doc.page_content
      else acc) []

/-- Shallow embedding of `CompanyResearchCache.get_research`
(company_research_cache.py lines 96-130): `None` on a forced refresh; search
the store for the company; skip every document whose `expires_at` is strictly
before `now` (lazy expiry); bind the surviving documents by their type
(`research_data_of`, the loop of lines 117-128); report a miss when no result
or no surviving field remains. -/
def get_research (store : List ResearchDoc) (company_name : String)
    (now : ℚ) (force_refresh : Bool) : Option (List (String × String)) :=
  if force_refresh then none
  else if similarity_search store company_name = [] then none
  else if research_data_of (similarity_search store company_name) now = []
    then none
  else some (research_data_of (similarity_search store company_name) now)

/-- Outcome of `MockInterviewGenerator._get_company_research`
(mock_interview.py lines 86-147): how many external search calls ran, the
research dictionary returned (abstracted to the four content fields), and the
cache store after the call. -/
structure CompanyResearchOutcome where
  search_calls : ℕ
  research : ResearchData
  store_after : List ResearchDoc
deriving DecidableEq, Repr

/-- Cached association list converted back to the research-dictionary shape
for the early return of `_get_company_research`. -/
def research_of_cached (m : List (String × String)) : ResearchData :=
  ⟨dict_get m "overview", dict_get m "culture", dict_get m "news",
    dict_get m "position_analysis"⟩

/-- Shallow embedding of `MockInterviewGenerator._get_company_research`
(mock_interview.py lines 86-147).  On a cache hit without force-refresh the
cached mapping is returned and no search runs.  Otherwise the four web-search
collaborator calls (`search_company_overview`, `search_company_culture`,
`search_recent_news`, `search_position_insights`, abstracted by the
`search_*` parameters) are all performed; the `try` block then evaluates
`datetime.now()` at line 121, but `mock_interview.py` never imports
`datetime`, so a `NameError` is raised before the dictionary is completed,
the `except Exception` handler takes over, and the function returns the error
placeholder dictionary — overview set to the error message, the other three
fields empty — without any cache write.  The write-through call
`self.research_cache.save_research(...)` at line 125 is doubly unreachable:
besides the `NameError`, `CompanyResearchCache` defines no method named
`save_research` (its write method is `add_research`), so line 125 would raise
`AttributeError` even with the import fixed.  The store is therefore returned
unchanged on the research path. -/
def get_company_research (store : List ResearchDoc)
    (company_name position : String) (force_refresh : Bool) (now : ℚ)
    (search_overview search_culture search_news search_position : String) :
    CompanyResearchOutcome :=
  let error_research : ResearchData :=
    { overview := some ("Error researching " ++ company_name ++
        ": name datetime is not defined")
      culture := some ""
      news := some ""
      position_analysis := some "" }
  if !force_refresh then
    match get_research store company_name now false with
    | some cached => ⟨0, research_of_cached cached, store⟩
    | none => ⟨4, error_research, store⟩
  else ⟨4, error_research, store⟩

/-- Session mutators of `ShortTermMemory` modelled above, used to quantify
over every operation the store applies to an active session
(short_term_memory.py lines 76-141). -/
inductive SessionOp
  | addQuestion (question : String)
  | addAnswer (answer : String) (critique_score : Option Critique)
  | addIteration (record : ℕ × ℚ)
  | addFollowUp (question : String) (answer : Option String)
  | setMode (mode : InterviewMode)
  | addMockQuestions (questions : List String)
deriving DecidableEq, Repr

/-- Application of a session mutator. -/
def apply_session_op : SessionOp → InterviewSession → InterviewSession
  | .addQuestion q, sess => add_question sess q
  | .addAnswer a c, sess => add_answer sess a c
  | .addIteration r, sess => add_iteration sess r
  | .addFollowUp q a, sess => add_follow_up sess q a
  | .setMode m, sess => set_mode sess m
  | .addMockQuestions qs, sess => add_mock_questions sess qs

/-! ## Helper lemmas -/

/-- Unfolding lemma for `critique_answer_node` on a successfully parsed
critique: the iterate flag is the conjunction of the two strict comparisons,
and the overall score of the stored critique is the parsed overall score. -/
theorem critique_answer_node_spec (s : Settings) (c : Critique)
    (company_context alignment_result : String) (iteration_count : ℕ) :
    (critique_answer_node s (some c) company_context alignment_result
        iteration_count).should_iterate
      = (decide (c.overall < s.critique_threshold) &&
         decide (iteration_count < s.max_iterations))
    ∧ (critique_answer_node s (some c) company_context alignment_result
        iteration_count).critique_result.overall = c.overall := by
  simp only [critique_answer_node, Option.getD_some]
  split <;> exact ⟨rfl, rfl⟩

/-- Main invariant of the generate/critique loop, by induction on the fuel:
started from an iteration count that is 0 or still below the bound, with
enough fuel and with one accumulated round per counted iteration, the loop
ends with the iterate flag false, reports exactly one iteration per performed
round, performs at least one more round, stays within
`max s.max_iterations (it + 1)` rounds, and stops either because the last
overall score reached the threshold or because the bound was hit. -/
theorem critique_loop_aux_spec (s : Settings) (critiques : ℕ → Critique)
    (company_context alignment_result : String) :
    ∀ (fuel it : ℕ) (acc : List Critique),
      (it = 0 ∨ it < s.max_iterations) →
      s.max_iterations + 1 ≤ fuel + it →
      acc.length = it →
      (critique_loop_aux s critiques company_context alignment_result
          fuel it acc).should_iterate = false ∧
      (critique_loop_aux s critiques company_context alignment_result
          fuel it acc).iterations =
        (critique_loop_aux s critiques company_context alignment_result
          fuel it acc).rounds.length ∧
      it < (critique_loop_aux s critiques company_context alignment_result
          fuel it acc).iterations ∧
      (critique_loop_aux s critiques company_context alignment_result
          fuel it acc).iterations ≤ max s.max_iterations (it + 1) ∧
      (s.critique_threshold ≤
          (critique_loop_aux s critiques company_context alignment_result
            fuel it acc).last.overall ∨
        s.max_iterations ≤
          (critique_loop_aux s critiques company_context alignment_result
            fuel it acc).iterations) := by
  intro fuel
  induction fuel with
  | zero =>
      intro it acc hinv hfuel _
      rcases hinv with h0 | hlt <;> omega
  | succ fuel ih =>
      intro it acc hinv hfuel hacc
      have hnode := critique_answer_node_spec s (critiques it)
        company_context alignment_result (it + 1)
      by_cases hsi : (critique_answer_node s (some (critiques it))
          company_context alignment_result (it + 1)).should_iterate = true
      · -- the loop goes around once more
        have hlt : it + 1 < s.max_iterations := by
          rw [hnode.1] at hsi
          have := (Bool.and_eq_true _ _).mp hsi
          exact of_decide_eq_true this.2
        have hstep : critique_loop_aux s critiques company_context
            alignment_result (fuel + 1) it acc =
            critique_loop_aux s critiques company_context alignment_result
              fuel (it + 1)
              ((critique_answer_node s (some (critiques it))
                company_context alignment_result (it + 1)).critique_result
                :: acc) := by
          simp only [critique_loop_aux]
          rw [if_pos hsi]
        rw [hstep]
        have hrec := ih (it + 1)
          ((critique_answer_node s (some (critiques it))
            company_context alignment_result (it + 1)).critique_result :: acc)
          (Or.inr hlt) (by omega) (by simp [hacc])
        refine ⟨hrec.1, hrec.2.1, by omega, ?_, hrec.2.2.2.2⟩
        have h1 : max s.max_iterations (it + 1 + 1) = s.max_iterations := by
          omega
        have h2 := hrec.2.2.2.1
        rw [h1] at h2
        omega
      · -- the loop exits
        have hsi' : (critique_answer_node s (some (critiques it))
            company_context alignment_result (it + 1)).should_iterate
            = false := by
          revert hsi
          cases (critique_answer_node s (some (critiques it))
            company_context alignment_result (it + 1)).should_iterate <;> simp
        have hstep : critique_loop_aux s critiques company_context
            alignment_result (fuel + 1) it acc =
            ⟨it + 1,
              ((critique_answer_node s (some (critiques it))
                company_context alignment_result (it + 1)).critique_result
                :: acc).reverse,
              (critique_answer_node s (some (critiques it))
                company_context alignment_result (it + 1)).should_iterate,
              (critique_answer_node s (some (critiques it))
                company_context alignment_result (it + 1)).critique_result⟩ := by
          simp only [critique_loop_aux]
          rw [if_neg hsi]
        rw [hstep]
        have hexit : s.critique_threshold ≤ (critiques it).overall ∨
            s.max_iterations ≤ it + 1 := by
          rw [hnode.1] at hsi'
          rcases Bool.and_eq_false_iff.mp hsi' with h | h
          · exact Or.inl (not_lt.mp (of_decide_eq_false h))
          · exact Or.inr (not_lt.mp (of_decide_eq_false h))
        refine ⟨hsi', ?_, Nat.lt_succ_self it,
          Nat.le_max_right s.max_iterations (it + 1), ?_⟩
        · simp [hacc]
        · simpa [hnode.2] using hexit

/-! ## Claim theorems -/

/-- C1: after every CRITIQUE step, the iterate-vs-refine decision is
`should_iterate = (overall_score < critique_threshold) AND
(iteration_count < max_iterations)`; in particular, when the overall score
equals `critique_threshold` exactly, `should_iterate` is false and the
conditional edge routes to refinement (the threshold is exclusive on the low
side). -/
theorem critique_decision_threshold_exclusive (s : Settings) (c : Critique)
    (company_context alignment_result : String) (iteration_count : ℕ) :
    (critique_answer_node s (some c) company_context alignment_result
        iteration_count).should_iterate
      = (decide (c.overall < s.critique_threshold) &&
         decide (iteration_count < s.max_iterations))
    ∧ (c.overall = s.critique_threshold →
        (critique_answer_node s (some c) company_context alignment_result
            iteration_count).should_iterate = false
        ∧ should_iterate_edge
            (critique_answer_node s (some c) company_context alignment_result
              iteration_count).should_iterate = Route.refine) := by
  have hnode := critique_answer_node_spec s c company_context
    alignment_result iteration_count
  refine ⟨hnode.1, fun h => ?_⟩
  have hfalse : (critique_answer_node s (some c) company_context
      alignment_result iteration_count).should_iterate = false := by
    rw [hnode.1, h]
    simp
  exact ⟨hfalse, by rw [hfalse]; rfl⟩

/-- Witness for C1: under the default settings, a critique scoring exactly
7.0 with the iteration counter at 1 does not iterate and routes to
refinement. -/
theorem critique_decision_threshold_exclusive_witness :
    (critique_answer_node defaultSettings (some fallback_critique) "" ""
        1).should_iterate = false
    ∧ should_iterate_edge
        (critique_answer_node defaultSettings (some fallback_critique) "" ""
          1).should_iterate = Route.refine :=
  (critique_decision_threshold_exclusive defaultSettings fallback_critique
    "" "" 1).2 rfl

/-- C2: for every critique stream, the generate/critique loop performs at
most `max_iterations` rounds (provided the configured bound is at least 1, as
the settings UI enforces), the iterate flag is false after the final round,
the loop stopped either because the last overall score reached the threshold
or because the bound was hit, at least one round ran, and the reported
iteration count equals the number of generate/critique rounds actually
performed. -/
theorem critique_loop_terminates_within_bound (s : Settings)
    (h : 1 ≤ s.max_iterations) (critiques : ℕ → Critique)
    (company_context alignment_result : String) :
    (critique_loop s critiques company_context
        alignment_result).should_iterate = false
    ∧ (critique_loop s critiques company_context
        alignment_result).iterations ≤ s.max_iterations
    ∧ 1 ≤ (critique_loop s critiques company_context
        alignment_result).iterations
    ∧ (critique_loop s critiques company_context
        alignment_result).iterations =
      (critique_loop s critiques company_context
        alignment_result).rounds.length
    ∧ (s.critique_threshold ≤
        (critique_loop s critiques company_context
          alignment_result).last.overall
       ∨ s.max_iterations ≤
        (critique_loop s critiques company_context
          alignment_result).iterations) := by
  have haux := critique_loop_aux_spec s critiques company_context
    alignment_result (s.max_iterations + 1) 0 [] (Or.inl rfl)
    (by omega) rfl
  have hmax : max s.max_iterations (0 + 1) = s.max_iterations := by omega
  rw [hmax] at haux
  exact ⟨haux.1, haux.2.2.2.1, haux.2.2.1, haux.2.1, haux.2.2.2.2⟩

/-- Witness for C2: under the default settings (bound 3) and a critique
stream scoring 7.0 every round, the loop reports no further iteration, at
most 3 and at least 1 round, and a round count equal to the recorded round
list. -/
theorem critique_loop_terminates_within_bound_witness :
    (critique_loop defaultSettings (fun _ => fallback_critique) ""
        "").should_iterate = false
    ∧ (critique_loop defaultSettings (fun _ => fallback_critique) ""
        "").iterations ≤ defaultSettings.max_iterations
    ∧ 1 ≤ (critique_loop defaultSettings (fun _ => fallback_critique) ""
        "").iterations
    ∧ (critique_loop defaultSettings (fun _ => fallback_critique) ""
        "").iterations =
      (critique_loop defaultSettings (fun _ => fallback_critique) ""
        "").rounds.length
    ∧ (defaultSettings.critique_threshold ≤
        (critique_loop defaultSettings (fun _ => fallback_critique) ""
          "").last.overall
       ∨ defaultSettings.max_iterations ≤
        (critique_loop defaultSettings (fun _ => fallback_critique) ""
          "").iterations) :=
  critique_loop_terminates_within_bound defaultSettings (by decide)
    (fun _ => fallback_critique) "" ""

/-- C5: the difficulty adjustment is a pure mapping over the three levels:
an average of at least 8.5 promotes exactly one level (hard stays hard), an
average of at most 5.5 demotes exactly one level (easy stays easy), any
average strictly between the two thresholds leaves the level unchanged, and
a single call never moves the level by more than one step. -/
theorem adjust_difficulty_staircase (cur : String)
    (hc : cur = "easy" ∨ cur = "medium" ∨ cur = "hard") (avg : ℚ) :
    ((8.5 : ℚ) ≤ avg →
      difficulty_rank (adjust_difficulty cur avg) =
        min (difficulty_rank cur + 1) 2)
    ∧ (avg ≤ (5.5 : ℚ) →
      difficulty_rank (adjust_difficulty cur avg) = difficulty_rank cur - 1)
    ∧ ((5.5 : ℚ) < avg → avg < (8.5 : ℚ) → adjust_difficulty cur avg = cur)
    ∧ difficulty_rank (adjust_difficulty cur avg) ≤ difficulty_rank cur + 1
    ∧ difficulty_rank cur ≤ difficulty_rank (adjust_difficulty cur avg) + 1 := by
  refine ⟨fun h87 => ?_, fun h55 => ?_, fun hlo hhi => ?_, ?_⟩
  · have hn : ¬ avg ≤ (5.5 : ℚ) := by linarith
    rcases hc with h | h | h <;> subst h <;>
      simp [adjust_difficulty, difficulty_rank, h87, hn]
  · have hn : ¬ (8.5 : ℚ) ≤ avg := by linarith
    rcases hc with h | h | h <;> subst h <;>
      simp [adjust_difficulty, difficulty_rank, h55, hn]
  · have hn1 : ¬ (8.5 : ℚ) ≤ avg := by linarith
    have hn2 : ¬ avg ≤ (5.5 : ℚ) := by linarith
    simp [adjust_difficulty, hn1, hn2]
  · by_cases h1 : (8.5 : ℚ) ≤ avg
    · rcases hc with h | h | h <;> subst h <;>
        simp [adjust_difficulty, difficulty_rank, h1]
    · by_cases h2 : avg ≤ (5.5 : ℚ) <;>
        rcases hc with h | h | h <;> subst h <;>
        simp [adjust_difficulty, difficulty_rank, h1, h2]

/-- Witness for C5: the four scenarios of the spec — a 9.0 average promotes
medium to hard, hard stays hard at 9.0, easy stays easy at 4.0, and medium is
unchanged at 7.0 in the dead band. -/
theorem adjust_difficulty_staircase_witness :
    (difficulty_rank (adjust_difficulty "medium" 9) =
        min (difficulty_rank "medium" + 1) 2
      ∧ adjust_difficulty "medium" 9 = "hard")
    ∧ (difficulty_rank (adjust_difficulty "hard" 9) =
        min (difficulty_rank "hard" + 1) 2
      ∧ adjust_difficulty "hard" 9 = "hard")
    ∧ (difficulty_rank (adjust_difficulty "easy" 4) =
        difficulty_rank "easy" - 1
      ∧ adjust_difficulty "easy" 4 = "easy")
    ∧ adjust_difficulty "medium" 7 = "medium" :=
  ⟨⟨(adjust_difficulty_staircase "medium" (Or.inr (Or.inl rfl)) 9).1
      (by norm_num),
     by simp [adjust_difficulty, show (8.5 : ℚ) ≤ 9 by norm_num]⟩,
   ⟨(adjust_difficulty_staircase "hard" (Or.inr (Or.inr rfl)) 9).1
      (by norm_num),
     by simp [adjust_difficulty, show (8.5 : ℚ) ≤ 9 by norm_num]⟩,
   ⟨(adjust_difficulty_staircase "easy" (Or.inl rfl) 4).2.1
      (by norm_num),
     by simp [adjust_difficulty, show ¬ (8.5 : ℚ) ≤ 4 by norm_num,
       show (4 : ℚ) ≤ 5.5 by norm_num]⟩,
   (adjust_difficulty_staircase "medium" (Or.inr (Or.inl rfl)) 7).2.2.1
      (by norm_num) (by norm_num)⟩

/-- Iterating `get_next_mock_question` from index `i` with enough questions
left returns the next `n` questions of the generated sequence in order and
advances the index to `i + n`. -/
theorem calls_get_next_spec (qs : List String) (d : String) (sc : List ℚ) :
    ∀ (n i : ℕ), i + n ≤ qs.length →
      calls_get_next n ⟨qs, i, d, sc⟩ =
        (((qs.drop i).take n).map some, ⟨qs, i + n, d, sc⟩) := by
  intro n
  induction n with
  | zero => intro i h; simp [calls_get_next]
  | succ n ih =>
      intro i h
      have hi : i < qs.length := by omega
      have hnext : get_next_mock_question ⟨qs, i, d, sc⟩ =
          (some qs[i], ⟨qs, i + 1, d, sc⟩) := by
        simp [get_next_mock_question, hi]
      have hrec := ih (i + 1) (by omega)
      have hidx : i + 1 + n = i + (n + 1) := by omega
      rw [hidx] at hrec
      rw [show (⟨qs, i, d, sc⟩ : MockInterviewSession) = ⟨qs, i, d, sc⟩ from rfl]
      simp only [calls_get_next, hnext, hrec]
      rw [List.drop_eq_getElem_cons hi, List.take_succ_cons]
      simp

/-- C7: a mock sub-state holding `N` generated questions, consumed from
index 0, yields each question exactly once in generation order over `N`
calls of `get_next_mock_question` (post-increment semantics), after which
the index sits at `N` and the next call returns nothing and leaves the state
unchanged. -/
theorem get_next_mock_question_consumes_in_order (qs : List String)
    (d : String) (sc : List ℚ) :
    calls_get_next qs.length ⟨qs, 0, d, sc⟩ =
        (qs.map some, ⟨qs, qs.length, d, sc⟩)
    ∧ get_next_mock_question ⟨qs, qs.length, d, sc⟩ =
        (none, ⟨qs, qs.length, d, sc⟩) := by
  constructor
  · have h := calls_get_next_spec qs d sc qs.length 0 (by omega)
    simpa using h
  · simp [get_next_mock_question]

/-- C10: when the critique threshold has its default value 7.0, a critique
whose structured output fails to parse receives the fallback critique with
overall score exactly 7.0, and therefore `should_iterate` is false no matter
what the iteration count is. -/
theorem parse_failure_fallback_never_iterates (s : Settings)
    (h : s.critique_threshold = 7)
    (company_context alignment_result : String) (iteration_count : ℕ) :
    (critique_answer_node s none company_context alignment_result
        iteration_count).critique_result.overall = 7
    ∧ (critique_answer_node s none company_context alignment_result
        iteration_count).should_iterate = false := by
  simp only [critique_answer_node, Option.getD_none]
  split <;> simp [fallback_critique, h]

/-- Witness for C10: under the default settings, a parse-failure critique at
iteration count 5 reports overall 7.0 and does not iterate. -/
theorem parse_failure_fallback_never_iterates_witness :
    (critique_answer_node defaultSettings none "Acme" "aligned"
        5).critique_result.overall = 7
    ∧ (critique_answer_node defaultSettings none "Acme" "aligned"
        5).should_iterate = false :=
  parse_failure_fallback_never_iterates defaultSettings rfl "Acme" "aligned" 5

/-- Folding `add_iteration` over a list of records appends the records to the
iteration history and changes nothing else of the session. -/
theorem foldl_add_iteration_eq (l : List ℕ) (g : ℕ → ℕ × ℚ) :
    ∀ (s0 : InterviewSession),
      l.foldl (fun acc i => add_iteration acc (g i)) s0 =
        { s0 with
          practice_session :=
            { s0.practice_session with
              iteration_history :=
                s0.practice_session.iteration_history ++ l.map g } } := by
  induction l with
  | nil => intro s0; simp
  | cons a t ih =>
      intro s0
      rw [List.foldl_cons, ih]
      simp [add_iteration]

/-- Full characterization of the session mutation of
`InterviewPrepOrchestrator.practice_question`: the question, answer, critique
and iteration records are appended; every other field — in particular
`follow_up_depth` and the whole mock sub-state — is unchanged. -/
theorem practice_question_step_eq (sess : InterviewSession) (question : String)
    (result : ProcessResult) :
    practice_question_step sess question result =
      { sess with
        practice_session :=
          { sess.practice_session with
            questions_asked :=
              sess.practice_session.questions_asked ++ [question]
            answers_given :=
              sess.practice_session.answers_given ++ [result.answer]
            critique_scores :=
              sess.practice_session.critique_scores ++ [result.critique_scores]
            iteration_history :=
              sess.practice_session.iteration_history ++
                (List.range result.iterations).map
                  (fun i => (i + 1, result.critique_scores.overall)) }
        current_question := some question
        current_answer := some result.answer } := by
  unfold practice_question_step
  rw [foldl_add_iteration_eq]
  simp [add_question, add_answer]

/-- C8 counterexample: a session at follow-up depth 2 keeps depth 2 after a
new top-level question is processed through the orchestrator — it is not
reset to 0, refuting the reset half of the claim. -/
theorem new_question_does_not_reset_depth_counterexample :
    (practice_question_step
        { follow_up_depth := 2 } "Tell me about yourself"
        { answer := "ans", critique_scores := fallback_critique,
          iterations := 1, error := none }).follow_up_depth = 2 := by
  rw [practice_question_step_eq]

/-- C8 (amended): the follow-up depth counter is monotonically non-decreasing
under every session mutator of the state store; it starts at 0 when a new
session is created; and processing a new top-level question through the
orchestrator leaves it unchanged — the counter is reset only by creating a
new session, not by a new top-level question. -/
theorem follow_up_depth_monotone_reset_only_on_new_session :
    (∀ (op : SessionOp) (sess : InterviewSession),
      sess.follow_up_depth ≤ (apply_session_op op sess).follow_up_depth)
    ∧ (∀ jd cn p m, (create_session jd cn p m).follow_up_depth = 0)
    ∧ (∀ (sess : InterviewSession) (q : String) (r : ProcessResult),
        (practice_question_step sess q r).follow_up_depth =
          sess.follow_up_depth) := by
  refine ⟨?_, ?_, ?_⟩
  · intro op sess
    cases op <;>
      simp [apply_session_op, add_question, add_answer, add_iteration,
        add_follow_up, set_mode, add_mock_questions]
  · intro jd cn p m
    rfl
  · intro sess q r
    rw [practice_question_step_eq]

/-- C3 counterexample: a session whose follow-up depth already equals the
configured maximum (3) still has its follow-up processed in full by the
orchestrator — the pipeline runs one generate/critique round, no
maximum-depth signal is produced, and the depth grows to 4.  The depth bound
is therefore not enforced on the real follow-up path. -/
theorem follow_up_depth_not_enforced_counterexample :
    (practice_follow_up defaultSettings
        { practice_session := { questions_asked := ["q1"], answers_given := ["a1"] }
          follow_up_depth := 3 }
        "Can you elaborate?" (fun _ => fallback_critique) "" ""
        "follow-up answer").map
      (fun out => (out.result.error, out.result.iterations,
        out.session_after.follow_up_depth)) = some (none, 1, 4) := by
  rfl

/-- C3 (amended): the depth bound lives only in `handle_follow_up_node`,
which — called directly — returns the terminal maximum-depth signal without
scheduling generation for every incoming depth at or above the configured
maximum and accepts lower depths (incrementing the depth, resetting the
iteration counter); but that node is unreachable: no workflow edge targets it
and it is not the entry point, and the orchestrator follow-up path always
invokes generation (at least one round) and returns no error signal,
regardless of the session depth. -/
theorem follow_up_depth_check_unwired (s : Settings) :
    (∀ depth, s.follow_up_depth ≤ depth →
      handle_follow_up_node s depth =
        ⟨some "max_follow_up_depth", none, none,
          "Maximum follow-up depth reached"⟩)
    ∧ (∀ depth, depth < s.follow_up_depth →
      handle_follow_up_node s depth =
        ⟨none, some 0, some (depth + 1), "Processing follow-up question"⟩)
    ∧ (∀ e ∈ workflow_edges, e.2 ≠ "handle_follow_up")
    ∧ workflow_entry_point ≠ "handle_follow_up"
    ∧ (∀ (sess : InterviewSession) (fq : String) (critiques : ℕ → Critique)
        (cc ar ans : String) (out : FollowUpOutcome),
        practice_follow_up s sess fq critiques cc ar ans = some out →
        out.result.error = none
        ∧ 1 ≤ out.result.iterations
        ∧ out.session_after.follow_up_depth = sess.follow_up_depth + 1) := by
  refine ⟨?_, ?_, ?_, ?_, ?_⟩
  · intro depth hd
    simp [handle_follow_up_node, hd]
  · intro depth hd
    simp [handle_follow_up_node, Nat.not_le.mpr hd]
  · decide
  · decide
  · intro sess fq critiques cc ar ans out hout
    unfold practice_follow_up at hout
    split at hout
    · exact absurd hout (by simp)
    · have hloop := critique_loop_aux_spec s critiques cc ar
        (s.max_iterations + 1) 0 [] (Or.inl rfl) (by omega) rfl
      cases hout
      refine ⟨rfl, ?_, ?_⟩
      · exact hloop.2.2.1
      · simp [add_follow_up]

/-- Witness for the amended C3: with the default maximum 3, an incoming depth
of 3 yields the terminal signal and an incoming depth of 0 is accepted. -/
theorem follow_up_depth_check_unwired_witness :
    handle_follow_up_node defaultSettings 3 =
      ⟨some "max_follow_up_depth", none, none,
        "Maximum follow-up depth reached"⟩
    ∧ handle_follow_up_node defaultSettings 0 =
      ⟨none, some 0, some 1, "Processing follow-up question"⟩ :=
  ⟨(follow_up_depth_check_unwired defaultSettings).1 3 (by decide),
   (follow_up_depth_check_unwired defaultSettings).2.1 0 (by decide)⟩

/-- C9: in mock-interview mode, answering the current question appends
exactly one performance score; the adaptive difficulty adjustment runs
exactly when the number of recorded performance scores after this question is
a positive multiple of 3; and the average it consumes is the arithmetic mean
of all critique scores recorded so far in the session (the full history
including this question, not a sliding window). -/
theorem answer_mock_question_adaptive_cadence (sess : InterviewSession)
    (result : ProcessResult)
    (h1 : 1 ≤ sess.mock_session.current_question_index)
    (h2 : sess.mock_session.current_question_index - 1 <
      sess.mock_session.generated_questions.length) :
    ∃ out, answer_mock_question sess result = some out
      ∧ out.session_after.mock_session.performance_scores =
          sess.mock_session.performance_scores ++
            [result.critique_scores.overall]
      ∧ (out.difficulty_adjusted = true ↔
          ∃ k, 1 ≤ k ∧
            sess.mock_session.performance_scores.length + 1 = 3 * k)
      ∧ (out.difficulty_adjusted = true →
          out.average_used = some
            (((sess.practice_session.critique_scores ++
                [result.critique_scores]).map Critique.overall).sum /
              ((sess.practice_session.critique_scores ++
                [result.critique_scores]).length)))
      ∧ (out.difficulty_adjusted = false → out.average_used = none) := by
  have hstep := practice_question_step_eq sess
    (sess.mock_session.generated_questions.get
      ⟨sess.mock_session.current_question_index - 1, h2⟩)
    result
  unfold answer_mock_question
  rw [dif_pos ⟨h1, h2⟩]
  simp only [hstep]
  set c := result.critique_scores with hc
  by_cases hmod :
      (sess.mock_session.performance_scores ++ [c.overall]).length % 3 = 0
  · refine ⟨_, by rw [if_pos (by simpa using hmod)], ?_, ?_, ?_, ?_⟩
    · simp [adjust_mock_difficulty]
    · constructor
      · intro _
        refine ⟨(sess.mock_session.performance_scores.length + 1) / 3,
          by simp at hmod; omega, by simp at hmod; omega⟩
      · intro _; rfl
    · intro _
      have hne : sess.practice_session.critique_scores ++ [c] ≠ [] := by
        simp
      simp [performance_average, hne]
    · intro hfalse
      exact absurd hfalse (by simp)
  · refine ⟨_, by rw [if_neg (by simpa using hmod)], ?_, ?_, ?_, ?_⟩
    · simp
    · constructor
      · intro hfalse
        exact absurd hfalse (by simp)
      · rintro ⟨k, hk, hk3⟩
        exact absurd (by simp; omega : (sess.mock_session.performance_scores
          ++ [c.overall]).length % 3 = 0) hmod
    · intro hfalse
      exact absurd hfalse (by simp)
    · intro _; rfl

/-- Witness for C9: a session with one generated mock question at index 1
and no recorded scores; answering appends one score (making 1, not a
multiple of 3), so no difficulty adjustment runs and no average is used. -/
theorem answer_mock_question_adaptive_cadence_witness :
    let sess : InterviewSession :=
      { mock_session :=
          { generated_questions := ["mq1"]
            current_question_index := 1
            difficulty_level := "medium"
            performance_scores := [] } }
    let result : ProcessResult :=
      { answer := "a"
        critique_scores := fallback_critique
        iterations := 1
        error := none }
    ∃ out, answer_mock_question sess result = some out
      ∧ out.session_after.mock_session.performance_scores =
          sess.mock_session.performance_scores ++
            [result.critique_scores.overall]
      ∧ (out.difficulty_adjusted = true ↔
          ∃ k, 1 ≤ k ∧
            sess.mock_session.performance_scores.length + 1 = 3 * k)
      ∧ (out.difficulty_adjusted = true →
          out.average_used = some
            (((sess.practice_session.critique_scores ++
                [result.critique_scores]).map Critique.overall).sum /
              ((sess.practice_session.critique_scores ++
                [result.critique_scores]).length)))
      ∧ (out.difficulty_adjusted = false → out.average_used = none) :=
  answer_mock_question_adaptive_cadence _ _ (by decide) (by decide)

/-- Membership in the association list after a Python-style dictionary
assignment: every binding either was already present or is the new one. -/
theorem dict_insert_mem (m : List (String × String)) (k v : String)
    (p : String × String) (hp : p ∈ dict_insert m k v) :
    p ∈ m ∨ p = (k, v) := by
  unfold dict_insert at hp
  split at hp
  · rcases List.mem_map.mp hp with ⟨q, hq, hfq⟩
    by_cases hqk : q.1 = k
    · rw [if_pos hqk] at hfq
      exact Or.inr hfq.symm
    · rw [if_neg hqk] at hfq
      exact Or.inl (hfq ▸ hq)
  · rcases List.mem_append.mp hp with h | h
    · exact Or.inl h
    · exact Or.inr (by simpa using h)

/-- Every binding produced by the expiry-filtering fold of `get_research`
either was in the accumulator already or stems from a document of the list
that had not expired at read time. -/
theorem get_research_fold_mem (now : ℚ) :
    ∀ (docs : List ResearchDoc) (acc : List (String × String))
      (p : String × String),
      p ∈ docs.foldl
        (fun acc doc =>
          if doc.expires_at < now then acc
          else if doc.doc_type ≠ "" then
            dict_insert acc doc.doc_type doc.page_content
          else acc) acc →
      p ∈ acc ∨ ∃ doc ∈ docs, doc.doc_type = p.1 ∧
        doc.page_content = p.2 ∧ ¬ doc.expires_at < now := by
  intro docs
  induction docs with
  | nil =>
      intro acc p hp
      exact Or.inl hp
  | cons d t ih =>
      intro acc p hp
      rw [List.foldl_cons] at hp
      rcases ih _ p hp with h | ⟨doc, hd, hdoc⟩
      · by_cases he : d.expires_at < now
        · rw [if_pos he] at h
          exact Or.inl h
        · rw [if_neg he] at h
          by_cases ht : d.doc_type ≠ ""
          · rw [if_pos ht] at h
            rcases dict_insert_mem _ _ _ _ h with h' | h'
            · exact Or.inl h'
            · exact Or.inr ⟨d, List.mem_cons_self d t,
                by rw [h']; exact ⟨rfl, rfl, he⟩⟩
          · rw [if_neg ht] at h
            exact Or.inl h
      · exact Or.inr ⟨doc, List.mem_cons_of_mem d hd, hdoc⟩

/-- C6: the read side of the cache is coded with the claimed lazy per-field
expiry, but no expiry instant can ever come into existence: every
`add_research` call whose research dictionary carries at least one of the
four fields raises `AttributeError` (the `Settings` class declares no
`research_cache_days`), every call leaves the store unchanged, and after the
failing write of all four fields for Acme the store is still empty, so a
read at any time — also strictly before the intended expiry instant — reports
a cache miss instead of returning the written field. -/
theorem research_cache_write_always_raises :
    (∀ (store : List ResearchDoc) (company : String) (rd : ResearchData)
      (now : ℚ),
      (add_research store company rd now).store_after = store
      ∧ ((add_research store company rd now).raised = true ↔
          (rd.overview.isSome ∨ rd.culture.isSome ∨ rd.news.isSome ∨
            rd.position_analysis.isSome)))
    ∧ add_research [] "Acme" ⟨some "o1", some "c1", some "n1", some "p1"⟩ 0 =
        ⟨true, []⟩
    ∧ (∀ now : ℚ, get_research
        (add_research [] "Acme"
          ⟨some "o1", some "c1", some "n1", some "p1"⟩ 0).store_after
        "Acme" now false = none) := by
  refine ⟨?_, rfl, fun now => rfl⟩
  intro store company rd now
  unfold add_research
  by_cases h : rd.overview.isSome ∨ rd.culture.isSome ∨ rd.news.isSome ∨
      rd.position_analysis.isSome
  · rw [if_pos h]
    exact ⟨rfl, by simp [h]⟩
  · rw [if_neg h]
    exact ⟨rfl, by simp [h]⟩

/-- C4: on every path of `_get_company_research` the cache store is returned
unchanged — the write-through never happens, because the research path raises
`NameError` (missing `datetime` import) inside the `try` block before the
`save_research` call, and that call would itself fail since the cache class
defines no such method.  At the concrete failing input (a refresh and a cold
miss for Acme), all four collaborator searches run and yet the function
returns the error placeholder dictionary and an unmodified empty store. -/
theorem research_write_through_never_happens :
    (∀ (store : List ResearchDoc) (company position : String)
      (force_refresh : Bool) (now : ℚ) (so sc sn sp : String),
      (get_company_research store company position force_refresh now
        so sc sn sp).store_after = store)
    ∧ get_company_research [] "Acme" "Engineer" true 0 "ov" "cu" "nw" "pi" =
      ⟨4, ⟨some "Error researching Acme: name datetime is not defined",
        some "", some "", some ""⟩, []⟩
    ∧ get_company_research [] "Acme" "Engineer" false 0 "ov" "cu" "nw" "pi" =
      ⟨4, ⟨some "Error researching Acme: name datetime is not defined",
        some "", some "", some ""⟩, []⟩ := by
  refine ⟨?_, rfl, rfl⟩
  intro store company position force_refresh now so sc sn sp
  unfold get_company_research
  split
  · split <;> rfl
  · rfl

end BorjiginGPT
